import Mathlib

/-!
# Verification of the authentication entry protocol

Shallow embedding of `src/app/api/auth/entry/route.ts`: the data rows the
route reads, the credential verifier, the token issuer, and the `GET`
orchestrator. The relational store is modelled as a structure of keyed
lookup functions (one per SQL query in the route); time (`Date.now`) and
randomness (`crypto.randomBytes` for the `jti`) are explicit parameters.
Signed tokens are modelled abstractly: a token carries its payload, the
algorithm it was signed with, and the secret used as the HMAC key, and
`jwt.verify` succeeds exactly when the algorithm is in the allowed list,
the secret matches, and the expiry claim is still in the future
(`jsonwebtoken` rejects a token once the clock reaches `exp`). A string
that is not a well-formed signed token is the `garbage` constructor and
never verifies. Redirect responses carry the redirect base URL and the
attached `token` query parameter; per the data model the stored
`callback_url` is an absolute http(s) URL or null, so `new URL` never
throws on it.
-/

set_option autoImplicit false

namespace Entry

/-- JS truthiness of a `string | null` value: null and `""` are falsy. -/
def truthy (o : Option String) : Bool :=
  !(o.getD "").isEmpty

/-- Models `x || undefined` on a string: the empty string becomes absent. -/
def strOpt (s : String) : Option String :=
  if s.isEmpty then none else some s

/-- Whitespace removed by JS `String.prototype.trim` (the common ASCII
subset; the full Unicode white-space set is outside the model). -/
def isJsSpace (c : Char) : Bool :=
  c == ' ' || c == '\t' || c == '\n' || c == '\r' || c == '\x0b' || c == '\x0c'

/-- JS `s.trim()`: drop leading and trailing whitespace. -/
def jsTrim (s : String) : String :=
  ⟨((s.data.dropWhile isJsSpace).reverse.dropWhile isJsSpace).reverse⟩

/-- `normalizeStr` from the route: null becomes `""`, then trim. -/
def normalizeStr (s : Option String) : String :=
  jsTrim (s.getD "")

/-- `normalizePhone` from the route (delegates to `normalizeStr`). -/
def normalizePhone (s : Option String) : String :=
  normalizeStr s

/-- Read a run of decimal digits as a number; none on a non-digit. -/
def decDigits : List Char → Nat → Option Nat
  | [], acc => some acc
  | c :: cs, acc =>
    if c.isDigit then decDigits cs (acc * 10 + (c.toNat - 48)) else none

/-- Models `Number(s)` composed with the store accepting the value as an
integer key. Covers (optionally signed) decimal integer strings; a
string whose conversion is `NaN` or non-integral makes the
parameterised store query throw, which the route's outer catch turns
into a 500 JSON error. Exotic numeric spellings (hex, exponent,
fractions) are outside the model. -/
def jsNumber (s : String) : Option Int :=
  match s.data with
  | [] => none
  | '-' :: [] => none
  | '-' :: cs => (decDigits cs 0).map (fun n => -(n : Int))
  | '+' :: [] => none
  | '+' :: cs => (decDigits cs 0).map (fun n => (n : Int))
  | cs => (decDigits cs 0).map (fun n => (n : Int))

/-- The HMAC algorithms a company may configure (the spec's fixed
three-member signing-algorithm enumeration). `jwt.sign` throws on an
algorithm outside the supported set. -/
def hsAlgs : List String :=
  ["HS256", "HS384", "HS512"]

/-- `CompanyRow` from the route. `token_ttl_seconds` is `Option Int` so
that a NULL column (JS `null`, falsy like `0`) is representable. -/
structure CompanyRow where
  id : Int
  name : String
  callback_url : Option String
  jwt_alg : String
  token_ttl_seconds : Option Int
deriving DecidableEq, Repr

/-- `UserRow` from the route (the constant `true AS is_active` column is
never read downstream and is omitted). -/
structure UserRow where
  id : Int
  company_id : Int
  first_name : String
  last_name : String
  phone_number : String
  role : String
deriving DecidableEq, Repr

/-- `KeyRow` from the route: the stored verification-key value. -/
structure KeyRow where
  key_value : Option String
deriving DecidableEq, Repr

/-- The claims object built by `issueJwt`. -/
structure Payload where
  sub : String
  cid : String
  role : String
  id : String
  iat : Nat
  exp : Int
  jti : String
deriving DecidableEq, Repr

/-- A token string, viewed abstractly: either a well-formed signed token
(payload, signing algorithm, HMAC secret) or any other string. -/
inductive Token where
  | signed (payload : Payload) (alg : String) (secret : String)
  | garbage (s : String)
deriving DecidableEq, Repr

/-- `jwt.verify(t, secret, { algorithms })` at clock time `now`:
succeeds iff the token is well-formed, its algorithm is allowed, its
secret matches, and `now` is strictly before the expiry claim. -/
def jwtVerify (t : Token) (secret : String) (algs : List String) (now : Nat) : Bool :=
  match t with
  | .garbage _ => false
  | .signed p alg sec =>
    algs.contains alg && (sec == secret) && decide ((now : Int) < p.exp)

/-- `jwt.sign(payload, secret, { algorithm })`: throws (modelled as
`Except.error`) when the algorithm is not a supported HMAC algorithm. -/
def jwtSign (p : Payload) (secret : String) (alg : String) : Except String Token :=
  if hsAlgs.contains alg then .ok (.signed p alg secret)
  else .error "invalid algorithm"

/-- The external relational store, one keyed lookup per SQL query in the
route (the spec's collaborator read contracts). `activeSecret` is the
raw `rows[0]?.jwt` of the active-secret query; `userByPhone` /
`userByName` are the two `findUser` queries; `userKey` is the
verification-key query. -/
structure Store where
  companyById : Int → Option CompanyRow
  companyByName : String → Option CompanyRow
  activeSecret : Int → Option String
  userByPhone : Int → String → Option UserRow
  userByName : Int → String → String → Option UserRow
  userKey : Int → Option KeyRow

/-- `getCompanyByIdOrName` from the route: the id lookup is used whenever
`company_id` is truthy, the name lookup only otherwise. The error branch
models the store query throwing on a non-integer `Number(company_id)`. -/
def getCompanyByIdOrName (store : Store) (company_id company_name : Option String) :
    Except String (Option CompanyRow) :=
  if truthy company_id then
    match jsNumber (company_id.getD "") with
    | some n => .ok (store.companyById n)
    | none => .error "invalid company identifier"
  else if truthy company_name then
    .ok (store.companyByName (company_name.getD ""))
  else
    .ok none

/-- `getActiveSecret` from the route: `rows[0]?.jwt || null` — a missing
row or an empty stored secret both yield null. -/
def getActiveSecret (store : Store) (companyId : Int) : Option String :=
  match store.activeSecret companyId with
  | some s => if s.isEmpty then none else some s
  | none => none

/-- `findUser` from the route: phone strategy whenever `phone` is truthy,
name strategy only otherwise, and only with both names present. -/
def findUser (store : Store) (companyId : Int)
    (phone first last : Option String) : Option UserRow :=
  if truthy phone then
    store.userByPhone companyId (phone.getD "")
  else if truthy first && truthy last then
    store.userByName companyId (first.getD "") (last.getD "")
  else
    none

/-- `getUserKey` from the route. -/
def getUserKey (store : Store) (userId : Int) : Option KeyRow :=
  store.userKey userId

/-- `timingSafeEqualStr` from the route: compare the UTF-8 encodings,
returning false immediately on a byte-length mismatch, else performing
the constant-time byte comparison. Byte equality of UTF-8 encodings
coincides with string equality (the encoding is injective). -/
def timingSafeEqualStr (a b : String) : Bool :=
  if a.utf8ByteSize ≠ b.utf8ByteSize then false
  else a == b

/-- `verifyPersonalKey` from the route: false when the key row is absent
or its stored value is null/empty, else the constant-time comparison. -/
def verifyPersonalKey (provided : String) (keyRow : Option KeyRow) : Bool :=
  match keyRow with
  | none => false
  | some kr =>
    if truthy kr.key_value then timingSafeEqualStr provided (kr.key_value.getD "")
    else false

/-- `company.token_ttl_seconds || 1209600`: null and `0` fall back to the
14-day default, every other integer passes through. -/
def ttlEffective (t : Option Int) : Int :=
  if t.getD 0 = 0 then 1209600 else t.getD 0

/-- `issueJwt` from the route, with `Date.now` (seconds) and the random
`jti` as explicit parameters. -/
def issueJwt (user : UserRow) (company : CompanyRow) (secret : String)
    (nowSec : Nat) (jti : String) : Except String Token :=
  let exp : Int := (nowSec : Int) + ttlEffective company.token_ttl_seconds
  let payload : Payload :=
    { sub := toString user.id
      cid := toString company.id
      role := user.role
      id := if user.role == "admin" then "admin" else toString user.id
      iat := nowSec
      exp := exp
      jti := jti }
  let algorithm := if company.jwt_alg.isEmpty then "HS256" else company.jwt_alg
  jwtSign payload secret algorithm

/-- The redirect Location: the callback base URL with the token attached
as the `token` query parameter. -/
structure RedirectTarget where
  base : String
  tokenParam : Token
deriving DecidableEq, Repr

/-- `buildRedirect` from the route (`new URL(urlBase)` plus
`searchParams.set("token", token)`). -/
def buildRedirect (urlBase : String) (token : Token) : RedirectTarget :=
  ⟨urlBase, token⟩

/-- The two response shapes the route produces: a redirect
(`NextResponse.redirect`) or a JSON error body `{ "error": msg }` with a
status code (`NextResponse.json`). -/
inductive Response where
  | redirect (target : RedirectTarget)
  | errJson (msg : String) (status : Nat)
deriving DecidableEq, Repr

/-- `jsonError` from the route. -/
def jsonError (msg : String) (status : Nat) : Response :=
  .errJson msg status

/-- A store write performed by the route. The route's only write is the
`INSERT INTO tokens (user_id, token)` of `persistIssuedToken`; it never
writes company, user, key or secret rows. -/
inductive Effect where
  | insertToken (userId : Int) (token : Token)
deriving DecidableEq, Repr

/-- `persistIssuedToken` from the route, as the ledger write it performs. -/
def persistIssuedToken (userId : Int) (token : Token) : Effect :=
  .insertToken userId token

/-- The key-verification continuation of `GET` (route lines 209-236):
identifier and key presence checks, user lookup, key verification,
token issuance, ledger write, redirect. The `Except.error` branch of
`issueJwt` is the route's outer catch (a 500 JSON error, no write). -/
def keyVerification (store : Store) (company : CompanyRow) (secret : String)
    (phone first last providedKey : String) (nowSec : Nat) (jti : String) :
    Response × List Effect :=
  if phone.isEmpty && !(!first.isEmpty && !last.isEmpty) then
    (jsonError "Missing user identifier (phone or first_name+last_name)" 400, [])
  else if providedKey.isEmpty then
    (jsonError "Missing personal key" 400, [])
  else
    match findUser store company.id (strOpt phone) (strOpt first) (strOpt last) with
    | none => (jsonError "User not found" 404, [])
    | some user =>
      let keyRow := getUserKey store user.id
      let ok := verifyPersonalKey providedKey keyRow
      if !ok then (jsonError "Invalid personal key" 401, [])
      else
        match issueJwt user company secret nowSec jti with
        | .error msg => (jsonError msg 500, [])
        | .ok token =>
          (Response.redirect (buildRedirect (company.callback_url.getD "") token),
           [persistIssuedToken user.id token])

/-- The request's query parameters. `token` is already the trimmed token
parameter with the empty string collapsed to absent (the route's
`providedTokenRaw || undefined`). -/
structure Request where
  company_id : Option String
  company_name : Option String
  phone : Option String
  first_name : Option String
  last_name : Option String
  key : Option String
  token : Option Token

/-- The `GET` handler of the entry route: resolve company, resolve active
secret, attempt the token shortcut, else fall through to key-based
verification. Returns the response together with the list of store
writes performed. -/
def GET (store : Store) (req : Request) (nowSec : Nat) (jti : String) :
    Response × List Effect :=
  let companyIdParam := normalizeStr req.company_id
  let companyNameParam := normalizeStr req.company_name
  let phone := normalizePhone req.phone
  let first := normalizeStr req.first_name
  let last := normalizeStr req.last_name
  let providedKey := normalizeStr req.key
  let providedToken := req.token
  match getCompanyByIdOrName store (strOpt companyIdParam) (strOpt companyNameParam) with
  | .error msg => (jsonError msg 500, [])
  | .ok none => (jsonError "Company not found" 404, [])
  | .ok (some company) =>
    if !truthy company.callback_url then
      (jsonError "Company callback_url not set" 500, [])
    else
      match getActiveSecret store company.id with
      | none => (jsonError "Active signing secret not found for company" 500, [])
      | some secret =>
        match providedToken with
        | some t =>
          if jwtVerify t secret [company.jwt_alg] nowSec then
            (Response.redirect (buildRedirect (company.callback_url.getD "") t), [])
          else
            keyVerification store company secret phone first last providedKey nowSec jti
        | none =>
          keyVerification store company secret phone first last providedKey nowSec jti

/-- A request reaches the key-verification path under `store` at time
`now`, resolving `company` and `secret`: the company resolves, its
callback URL is set, an active secret exists, and any provided token
fails verification. -/
def reachesKeyPath (store : Store) (req : Request) (now : Nat)
    (company : CompanyRow) (secret : String) : Prop :=
  getCompanyByIdOrName store (strOpt (normalizeStr req.company_id))
      (strOpt (normalizeStr req.company_name)) = .ok (some company)
  ∧ truthy company.callback_url = true
  ∧ getActiveSecret store company.id = some secret
  ∧ (∀ t, req.token = some t → jwtVerify t secret [company.jwt_alg] now = false)

/-! ## Concrete sample data (external-store instances used as witnesses) -/

/-- A well-configured company (the spec's example scenario). -/
def companyA : CompanyRow :=
  { id := 1, name := "acme", callback_url := some "https://app.example.com/cb"
    jwt_alg := "HS256", token_ttl_seconds := some 3600 }

/-- A company with no callback URL. -/
def companyB : CompanyRow :=
  { id := 2, name := "broken", callback_url := none
    jwt_alg := "HS256", token_ttl_seconds := some 3600 }

/-- A member user of company 1. -/
def userA : UserRow :=
  { id := 9, company_id := 1, first_name := "Ada", last_name := "L"
    phone_number := "+15550001", role := "member" }

/-- An admin user of company 1. -/
def userAdmin : UserRow :=
  { id := 7, company_id := 1, first_name := "Root", last_name := "R"
    phone_number := "+15550002", role := "admin" }

/-- A small concrete store: companies 1 and 2, user 9 with stored
personal key `"abc123"`. -/
def store1 : Store :=
  { companyById := fun n =>
      if n = 1 then some companyA else if n = 2 then some companyB else none
    companyByName := fun nm =>
      if nm = "acme" then some companyA
      else if nm = "broken" then some companyB else none
    activeSecret := fun n =>
      if n = 1 then some "s3cr3t" else if n = 2 then some "s3cr3t2" else none
    userByPhone := fun c p =>
      if c = 1 ∧ p = "+15550001" then some userA else none
    userByName := fun c f l =>
      if c = 1 ∧ f = "Ada" ∧ l = "L" then some userA else none
    userKey := fun u => if u = 9 then some ⟨some "abc123"⟩ else none }

/-- A key-path request for user 9 with the wrong personal key. -/
def reqWrongKey : Request :=
  { company_id := some "1", company_name := none, phone := some "+15550001"
    first_name := none, last_name := none, key := some "wrong", token := none }

/-- A key-path request to the company with no callback URL. -/
def reqBroken : Request :=
  { company_id := some "2", company_name := none, phone := some "+15550001"
    first_name := none, last_name := none, key := some "abc123", token := none }

/-- A request for a company id not present in the store. -/
def reqNoCompany : Request :=
  { company_id := some "999", company_name := none, phone := none
    first_name := none, last_name := none, key := none, token := none }

/-- The spec's example success request: company 1, user 9 by phone,
correct personal key. -/
def reqGood : Request :=
  { company_id := some "1", company_name := none, phone := some "+15550001"
    first_name := none, last_name := none, key := some "abc123", token := none }

/-- A request carrying only a previously issued, still-valid token. -/
def reqToken : Request :=
  { company_id := some "1", company_name := none, phone := none
    first_name := none, last_name := none, key := none
    token := some (Token.signed
      { sub := "9", cid := "1", role := "member", id := "9"
        iat := 0, exp := 3600, jti := "jti1" } "HS256" "s3cr3t") }

/-- A token for company 1 that expired at time 5. -/
def tokenExpired : Token :=
  Token.signed
    { sub := "9", cid := "1", role := "member", id := "9"
      iat := 0, exp := 5, jti := "jx" } "HS256" "s3cr3t"

/-- The success request with an expired token attached. -/
def reqTokenExpired : Request :=
  { company_id := some "1", company_name := none, phone := some "+15550001"
    first_name := none, last_name := none, key := some "abc123"
    token := some tokenExpired }

/-- A request whose phone matches no user while the name pair matches
user 9 exactly. -/
def reqNameMatch : Request :=
  { company_id := some "1", company_name := none, phone := some "+19999"
    first_name := some "Ada", last_name := some "L", key := some "abc123"
    token := none }

/-- The payload issued for user 9 at company 1, time 0, jti `"jti1"`. -/
def payloadA : Payload :=
  { sub := "9", cid := "1", role := "member", id := "9"
    iat := 0, exp := 3600, jti := "jti1" }

/-- The payload issued for the admin user at company 1, time 0, jti `"j2"`. -/
def payloadAdmin : Payload :=
  { sub := "7", cid := "1", role := "admin", id := "admin"
    iat := 0, exp := 3600, jti := "j2" }

/-- The token issued for user 9 at company 1, time 0, jti `"jti1"`
(the token attached to `reqToken`). -/
def tokenA : Token :=
  Token.signed payloadA "HS256" "s3cr3t"

/-! ## Helper lemmas -/

theorem isEmpty_false_of_ne {s : String} (h : s ≠ "") : s.isEmpty = false := by
  cases hse : s.isEmpty with
  | true => exact absurd (String.isEmpty_iff s |>.mp hse) h
  | false => rfl

theorem strOpt_of_ne {s : String} (h : s ≠ "") : strOpt s = some s := by
  unfold strOpt
  rw [isEmpty_false_of_ne h]
  rfl

theorem strOpt_empty : strOpt "" = none := rfl

theorem truthy_none : truthy none = false := rfl

theorem truthy_some {o : Option String} (h : truthy o = true) :
    ∃ s, o = some s ∧ s ≠ "" := by
  cases o with
  | none => exact Bool.noConfusion h
  | some s =>
    refine ⟨s, rfl, fun hs => ?_⟩
    subst hs
    exact Bool.noConfusion h

theorem truthy_of_ne {s : String} (h : s ≠ "") : truthy (some s) = true := by
  show (!s.isEmpty) = true
  cases hse : s.isEmpty with
  | true => exact absurd (String.isEmpty_iff s |>.mp hse) h
  | false => rfl

theorem timingSafeEqualStr_true_iff (a b : String) :
    timingSafeEqualStr a b = true ↔ a = b := by
  unfold timingSafeEqualStr
  split
  · rename_i h
    constructor
    · exact fun hf => absurd hf (by decide)
    · exact fun hab => absurd (congrArg String.utf8ByteSize hab) h
  · exact beq_iff_eq

theorem verifyPersonalKey_some (p kv : String) (h : kv ≠ "") :
    verifyPersonalKey p (some ⟨some kv⟩) = timingSafeEqualStr p kv := by
  show (if truthy (some kv) then timingSafeEqualStr p kv else false)
      = timingSafeEqualStr p kv
  rw [truthy_of_ne h]
  simp

theorem verifyPersonalKey_true_iff (p : String) (row : Option KeyRow) :
    verifyPersonalKey p row = true ↔
      ∃ kv, row = some ⟨some kv⟩ ∧ kv ≠ "" ∧ p = kv := by
  cases row with
  | none =>
    constructor
    · exact fun hf => Bool.noConfusion hf
    · rintro ⟨kv, hrow, -, -⟩
      cases hrow
  | some kr =>
    obtain ⟨kvOpt⟩ := kr
    cases kvOpt with
    | none =>
      constructor
      · exact fun hf => Bool.noConfusion hf
      · rintro ⟨kv, hrow, -, -⟩
        injection hrow with h1
        injection h1 with h2
        cases h2
    | some kv =>
      by_cases hkv : kv = ""
      · subst hkv
        constructor
        · exact fun hf => Bool.noConfusion hf
        · rintro ⟨kv2, hrow, hne, -⟩
          injection hrow with h1
          injection h1 with h2
          injection h2 with h3
          exact absurd h3.symm hne
      · rw [verifyPersonalKey_some p kv hkv, timingSafeEqualStr_true_iff]
        constructor
        · exact fun hpk => ⟨kv, rfl, hkv, hpk⟩
        · rintro ⟨kv2, hrow, -, hp⟩
          injection hrow with h1
          injection h1 with h2
          injection h2 with h3
          rw [hp, h3]

/-- A successfully issued token is the signed token over the literal
payload `issueJwt` builds. -/
theorem issueJwt_ok {user : UserRow} {company : CompanyRow} {secret : String}
    {now : Nat} {jti : String} {tok : Token}
    (h : issueJwt user company secret now jti = Except.ok tok) :
    tok = Token.signed
      { sub := toString user.id
        cid := toString company.id
        role := user.role
        id := if user.role == "admin" then "admin" else toString user.id
        iat := now
        exp := (now : Int) + ttlEffective company.token_ttl_seconds
        jti := jti }
      (if company.jwt_alg.isEmpty then "HS256" else company.jwt_alg)
      secret := by
  simp only [issueJwt, jwtSign] at h
  by_cases hc :
      hsAlgs.contains (if company.jwt_alg.isEmpty then "HS256" else company.jwt_alg) = true
  · rw [if_pos hc] at h
    exact (Except.ok.inj h).symm
  · rw [if_neg hc] at h
    exact Except.noConfusion h

/-- When a request reaches the key-verification path, `GET` is the
key-verification continuation on the normalized parameters. -/
theorem GET_eq_keyVerification (store : Store) (req : Request) (now : Nat)
    (jti : String) (company : CompanyRow) (secret : String)
    (h : reachesKeyPath store req now company secret) :
    GET store req now jti = keyVerification store company secret
      (normalizePhone req.phone) (normalizeStr req.first_name)
      (normalizeStr req.last_name) (normalizeStr req.key) now jti := by
  obtain ⟨hres, hcb, hsec, htok⟩ := h
  cases htk : req.token with
  | none => simp [GET, hres, hcb, hsec, htk]
  | some t => simp [GET, hres, hcb, hsec, htk, htok t htk]

/-- Every outcome of the key-verification continuation: a JSON error
with one of the documented statuses and no writes, or the success
redirect with exactly the one ledger write. -/
theorem keyVerification_cases (store : Store) (company : CompanyRow)
    (secret : String) (phone first last providedKey : String)
    (now : Nat) (jti : String) :
    (∃ msg st,
        keyVerification store company secret phone first last providedKey now jti
          = (jsonError msg st, [])
        ∧ st ∈ [400, 401, 404, 500])
    ∨ (∃ user tok,
        findUser store company.id (strOpt phone) (strOpt first) (strOpt last)
          = some user
        ∧ verifyPersonalKey providedKey (getUserKey store user.id) = true
        ∧ issueJwt user company secret now jti = Except.ok tok
        ∧ keyVerification store company secret phone first last providedKey now jti
            = (Response.redirect (buildRedirect (company.callback_url.getD "") tok),
               [Effect.insertToken user.id tok])) := by
  simp only [keyVerification]
  split
  · exact Or.inl ⟨_, 400, rfl, by simp⟩
  · split
    · exact Or.inl ⟨_, 400, rfl, by simp⟩
    · split
      · exact Or.inl ⟨_, 404, rfl, by simp⟩
      · next user hfind =>
        split
        · exact Or.inl ⟨_, 401, rfl, by simp⟩
        · next hok =>
          split
          · exact Or.inl ⟨_, 500, rfl, by simp⟩
          · next tok hiss =>
            refine Or.inr ⟨user, tok, hfind, ?_, hiss, rfl⟩
            simpa using hok

/-- Every outcome of `GET`: a JSON error with one of the documented
statuses and no writes, the token-shortcut redirect with no writes, or
the key-verification success redirect with exactly the one ledger
write. -/
theorem GET_cases (store : Store) (req : Request) (now : Nat) (jti : String) :
    (∃ msg st, GET store req now jti = (jsonError msg st, [])
        ∧ st ∈ [400, 401, 404, 500])
    ∨ (∃ company t secret,
        getCompanyByIdOrName store (strOpt (normalizeStr req.company_id))
          (strOpt (normalizeStr req.company_name)) = .ok (some company)
        ∧ truthy company.callback_url = true
        ∧ req.token = some t
        ∧ getActiveSecret store company.id = some secret
        ∧ jwtVerify t secret [company.jwt_alg] now = true
        ∧ GET store req now jti
            = (Response.redirect (buildRedirect (company.callback_url.getD "") t), []))
    ∨ (∃ company secret user tok,
        reachesKeyPath store req now company secret
        ∧ findUser store company.id (strOpt (normalizePhone req.phone))
            (strOpt (normalizeStr req.first_name))
            (strOpt (normalizeStr req.last_name)) = some user
        ∧ verifyPersonalKey (normalizeStr req.key) (getUserKey store user.id) = true
        ∧ issueJwt user company secret now jti = Except.ok tok
        ∧ GET store req now jti
            = (Response.redirect (buildRedirect (company.callback_url.getD "") tok),
               [Effect.insertToken user.id tok])) := by
  cases hres : getCompanyByIdOrName store (strOpt (normalizeStr req.company_id))
      (strOpt (normalizeStr req.company_name)) with
  | error msg => exact Or.inl ⟨msg, 500, by simp [GET, hres], by simp⟩
  | ok oc =>
    cases oc with
    | none =>
      exact Or.inl ⟨"Company not found", 404, by simp [GET, hres], by simp⟩
    | some company =>
      cases hcb : truthy company.callback_url with
      | false =>
        exact Or.inl ⟨"Company callback_url not set", 500,
          by simp [GET, hres, hcb], by simp⟩
      | true =>
        cases hsec : getActiveSecret store company.id with
        | none =>
          exact Or.inl ⟨"Active signing secret not found for company", 500,
            by simp [GET, hres, hcb, hsec], by simp⟩
        | some secret =>
          have hkeypath :
              (∀ t, req.token = some t →
                jwtVerify t secret [company.jwt_alg] now = false) →
              GET store req now jti = keyVerification store company secret
                (normalizePhone req.phone) (normalizeStr req.first_name)
                (normalizeStr req.last_name) (normalizeStr req.key) now jti :=
            fun hf => GET_eq_keyVerification store req now jti company secret
              ⟨hres, hcb, hsec, hf⟩
          cases htk : req.token with
          | some t =>
            cases hver : jwtVerify t secret [company.jwt_alg] now with
            | true =>
              exact Or.inr (Or.inl ⟨company, t, secret, by simp [hres], by simp [hcb],
                by simp [htk], by simp [hsec], by simp [hver],
                by simp [GET, hres, hcb, hsec, htk, hver]⟩)
            | false =>
              have hf : ∀ t2, req.token = some t2 →
                  jwtVerify t2 secret [company.jwt_alg] now = false := by
                intro t2 ht2
                rw [htk] at ht2
                cases Option.some.inj ht2
                exact hver
              have hg := hkeypath hf
              rcases keyVerification_cases store company secret
                  (normalizePhone req.phone) (normalizeStr req.first_name)
                  (normalizeStr req.last_name) (normalizeStr req.key) now jti with
                ⟨msg, st, hkv, hst⟩ | ⟨user, tok, hfind, hok, hiss, hkv⟩
              · exact Or.inl ⟨msg, st, by rw [hg, hkv], hst⟩
              · exact Or.inr (Or.inr ⟨company, secret, user, tok,
                  ⟨hres, hcb, hsec, hf⟩, hfind, hok, hiss, by rw [hg, hkv]⟩)
          | none =>
            have hf : ∀ t2, req.token = some t2 →
                jwtVerify t2 secret [company.jwt_alg] now = false := by
              intro t2 ht2
              rw [htk] at ht2
              cases ht2
            have hg := hkeypath hf
            rcases keyVerification_cases store company secret
                (normalizePhone req.phone) (normalizeStr req.first_name)
                (normalizeStr req.last_name) (normalizeStr req.key) now jti with
              ⟨msg, st, hkv, hst⟩ | ⟨user, tok, hfind, hok, hiss, hkv⟩
            · exact Or.inl ⟨msg, st, by rw [hg, hkv], hst⟩
            · exact Or.inr (Or.inr ⟨company, secret, user, tok,
                ⟨hres, hcb, hsec, hf⟩, hfind, hok, hiss, by rw [hg, hkv]⟩)

/-! ## Claim theorems -/

/-- C1: the credential verifier returns false whenever the key row is
absent or its stored value is null/empty, returns false whenever the
byte-lengths of the provided and stored values differ, returns true
exactly when the provided value equals the stored value byte-for-byte,
and on the key-verification path a false result yields the 401
`Invalid personal key` response. -/
theorem C1_credential_verifier (provided : String) (row : Option KeyRow) :
    (row = none → verifyPersonalKey provided row = false)
    ∧ (∀ kr, row = some kr → (kr.key_value = none ∨ kr.key_value = some "") →
        verifyPersonalKey provided row = false)
    ∧ (∀ kv, row = some ⟨some kv⟩ →
        provided.utf8ByteSize ≠ kv.utf8ByteSize →
        verifyPersonalKey provided row = false)
    ∧ (verifyPersonalKey provided row = true ↔
        ∃ kv, row = some ⟨some kv⟩ ∧ kv ≠ "" ∧ provided = kv)
    ∧ (∀ store req now jti company secret user,
        reachesKeyPath store req now company secret →
        (normalizePhone req.phone ≠ "" ∨
          (normalizeStr req.first_name ≠ "" ∧ normalizeStr req.last_name ≠ "")) →
        normalizeStr req.key ≠ "" →
        findUser store company.id (strOpt (normalizePhone req.phone))
          (strOpt (normalizeStr req.first_name))
          (strOpt (normalizeStr req.last_name)) = some user →
        verifyPersonalKey (normalizeStr req.key) (getUserKey store user.id) = false →
        GET store req now jti = (jsonError "Invalid personal key" 401, [])) := by
  refine ⟨?_, ?_, ?_, verifyPersonalKey_true_iff provided row, ?_⟩
  · rintro rfl
    rfl
  · rintro ⟨kvOpt⟩ rfl (h | h) <;> subst h <;> rfl
  · intro kv hrow hlen
    subst hrow
    by_cases hkv : kv = ""
    · subst hkv
      rfl
    · rw [verifyPersonalKey_some provided kv hkv]
      unfold timingSafeEqualStr
      rw [if_pos hlen]
  · intro store req now jti company secret user hreach hid hkey hfind hver
    rw [GET_eq_keyVerification store req now jti company secret hreach]
    have hguard : ((normalizePhone req.phone).isEmpty
        && !(!(normalizeStr req.first_name).isEmpty
            && !(normalizeStr req.last_name).isEmpty)) = false := by
      rcases hid with h | ⟨h1, h2⟩
      · simp [isEmpty_false_of_ne h]
      · simp [isEmpty_false_of_ne h1, isEmpty_false_of_ne h2]
    simp only [keyVerification, hguard, isEmpty_false_of_ne hkey, hfind, hver]
    simp [jsonError]

/-- C1 witness: the wrong-key request on the sample store is rejected
with the 401 response and the stored key `"abc123"` matches only
itself. -/
theorem C1_credential_verifier_witness :
    GET store1 reqWrongKey 0 "j" = (jsonError "Invalid personal key" 401, []) :=
  (C1_credential_verifier "wrong" (some ⟨some "abc123"⟩)).2.2.2.2 store1 reqWrongKey 0 "j"
    companyA "s3cr3t" userA ⟨rfl, rfl, rfl, fun t ht => Option.noConfusion ht⟩
    (Or.inl (by decide)) (by decide) rfl (by decide)

/-- C4: a request resolving to a company whose callback URL is null or
empty yields the 500 misconfiguration error regardless of the other
parameters. -/
theorem C4_missing_callback (store : Store) (req : Request) (now : Nat)
    (jti : String) (company : CompanyRow)
    (hres : getCompanyByIdOrName store (strOpt (normalizeStr req.company_id))
        (strOpt (normalizeStr req.company_name)) = .ok (some company))
    (hcb : company.callback_url = none ∨ company.callback_url = some "") :
    GET store req now jti = (jsonError "Company callback_url not set" 500, []) := by
  have ht : truthy company.callback_url = false := by
    rcases hcb with h | h <;> rw [h] <;> rfl
  simp [GET, hres, ht, jsonError]

/-- C4 witness: the request to the callback-less company 2 of the sample
store, carrying a correct personal key, still gets the 500 error. -/
theorem C4_missing_callback_witness :
    GET store1 reqBroken 0 "j" = (jsonError "Company callback_url not set" 500, []) :=
  C4_missing_callback store1 reqBroken 0 "j" companyB rfl (Or.inl rfl)

/-- C6: in every issued token, the expiry claim is the issued-at claim
plus the company's `token_ttl_seconds`, with 1209600 used in its place
when it is unset or zero. -/
theorem C6_expiry_computation (user : UserRow) (company : CompanyRow)
    (secret : String) (now : Nat) (jti : String) (tok : Token)
    (p : Payload) (alg s : String)
    (hiss : issueJwt user company secret now jti = Except.ok tok)
    (htok : tok = Token.signed p alg s) :
    p.iat = now
    ∧ p.exp = (now : Int) + ttlEffective company.token_ttl_seconds
    ∧ ((company.token_ttl_seconds = none ∨ company.token_ttl_seconds = some 0) →
        p.exp = (now : Int) + 1209600)
    ∧ (∀ t : Int, company.token_ttl_seconds = some t → t ≠ 0 →
        p.exp = (now : Int) + t) := by
  rw [issueJwt_ok hiss] at htok
  obtain ⟨hp, -, -⟩ := Token.signed.inj htok
  subst hp
  refine ⟨rfl, rfl, ?_, ?_⟩
  · rintro (h | h) <;> rw [h] <;> rfl
  · intro t ht htne
    rw [ht]
    simp [ttlEffective, htne]

/-- C6 witness: the token issued for user 9 at company 1 (TTL 3600) at
time 0 carries `iat = 0` and `exp = 0 + 3600`. -/
theorem C6_expiry_computation_witness :
    payloadA.iat = 0
    ∧ payloadA.exp = (0 : Int) + ttlEffective companyA.token_ttl_seconds
    ∧ ((companyA.token_ttl_seconds = none ∨ companyA.token_ttl_seconds = some 0) →
        payloadA.exp = (0 : Int) + 1209600)
    ∧ (∀ t : Int, companyA.token_ttl_seconds = some t → t ≠ 0 →
        payloadA.exp = (0 : Int) + t) :=
  C6_expiry_computation userA companyA "s3cr3t" 0 "jti1"
    (Token.signed payloadA "HS256" "s3cr3t") payloadA "HS256" "s3cr3t" rfl rfl

/-- C7: company resolution uses the id lookup whenever `company_id` is
provided (ignoring `company_name`), the name lookup only otherwise, and
a resolution matching no row yields the 404 `Company not found`
response. -/
theorem C7_company_resolution (store : Store) (req : Request) (now : Nat)
    (jti : String) :
    (∀ n : Int, normalizeStr req.company_id ≠ "" →
        jsNumber (normalizeStr req.company_id) = some n →
        getCompanyByIdOrName store (strOpt (normalizeStr req.company_id))
          (strOpt (normalizeStr req.company_name))
          = Except.ok (store.companyById n))
    ∧ (normalizeStr req.company_id = "" → normalizeStr req.company_name ≠ "" →
        getCompanyByIdOrName store (strOpt (normalizeStr req.company_id))
          (strOpt (normalizeStr req.company_name))
          = Except.ok (store.companyByName (normalizeStr req.company_name)))
    ∧ (getCompanyByIdOrName store (strOpt (normalizeStr req.company_id))
          (strOpt (normalizeStr req.company_name)) = .ok none →
        GET store req now jti = (jsonError "Company not found" 404, [])) := by
  refine ⟨?_, ?_, ?_⟩
  · intro n hne hn
    rw [strOpt_of_ne hne]
    unfold getCompanyByIdOrName
    rw [truthy_of_ne hne]
    simp [hn]
  · intro hid hname
    rw [hid, strOpt_empty, strOpt_of_ne hname]
    unfold getCompanyByIdOrName
    rw [truthy_none, truthy_of_ne hname]
    simp
  · intro hres
    simp [GET, hres, jsonError]

/-- C7 witness: id `999` matches no row in the sample store and the
request is rejected with 404, and id `1` resolves by id. -/
theorem C7_company_resolution_witness :
    GET store1 reqNoCompany 0 "j" = (jsonError "Company not found" 404, []) :=
  (C7_company_resolution store1 reqNoCompany 0 "j").2.2 rfl

/-- C8: the issued token's role claim is the user's role verbatim, and
the legacy id claim is the literal `"admin"` when the role is `"admin"`
and the user's numeric id rendered as a string otherwise. -/
theorem C8_role_and_legacy_id (user : UserRow) (company : CompanyRow)
    (secret : String) (now : Nat) (jti : String) (tok : Token)
    (p : Payload) (alg s : String)
    (hiss : issueJwt user company secret now jti = Except.ok tok)
    (htok : tok = Token.signed p alg s) :
    p.role = user.role
    ∧ (user.role = "admin" → p.id = "admin")
    ∧ (user.role ≠ "admin" → p.id = toString user.id) := by
  rw [issueJwt_ok hiss] at htok
  obtain ⟨hp, -, -⟩ := Token.signed.inj htok
  subst hp
  refine ⟨rfl, ?_, ?_⟩
  · intro h
    simp [h]
  · intro h
    simp [h]

/-- C8 witness: the token issued for the admin user carries role
`"admin"` and legacy id `"admin"`. -/
theorem C8_role_and_legacy_id_witness :
    payloadAdmin.role = userAdmin.role
    ∧ (userAdmin.role = "admin" → payloadAdmin.id = "admin")
    ∧ (userAdmin.role ≠ "admin" → payloadAdmin.id = toString userAdmin.id) :=
  C8_role_and_legacy_id userAdmin companyA "s3cr3t" 0 "j2"
    (Token.signed payloadAdmin "HS256" "s3cr3t") payloadAdmin "HS256" "s3cr3t" rfl rfl

/-- C2: a token issued for a company with a configured callback URL,
algorithm and active secret, presented as the `token` parameter of a
later entry request for the same company before its expiry, verifies,
short-circuits to a redirect carrying that same token, and writes no
Issued Token row. -/
theorem C2_token_roundtrip (store : Store) (req : Request) (now t0 : Nat)
    (jti jti2 : String) (company : CompanyRow) (secret : String)
    (user : UserRow) (tok : Token)
    (hres : getCompanyByIdOrName store (strOpt (normalizeStr req.company_id))
        (strOpt (normalizeStr req.company_name)) = .ok (some company))
    (hcb : truthy company.callback_url = true)
    (hsec : getActiveSecret store company.id = some secret)
    (halg : company.jwt_alg ∈ hsAlgs)
    (hiss : issueJwt user company secret t0 jti = Except.ok tok)
    (htok : req.token = some tok)
    (hexp : (now : Int) < (t0 : Int) + ttlEffective company.token_ttl_seconds) :
    GET store req now jti2
      = (Response.redirect (buildRedirect (company.callback_url.getD "") tok), []) := by
  have halgne : company.jwt_alg ≠ "" := by
    intro h
    rw [h] at halg
    simp [hsAlgs] at halg
  have htokeq := issueJwt_ok hiss
  rw [isEmpty_false_of_ne halgne] at htokeq
  simp only [Bool.false_eq_true, if_false] at htokeq
  have hver : jwtVerify tok secret [company.jwt_alg] now = true := by
    rw [htokeq]
    simp [jwtVerify, hexp]
  simp [GET, hres, hcb, hsec, htok, hver]

/-- C2 witness: the token issued for user 9 at time 0, replayed at time
10, short-circuits to the redirect with no ledger write. -/
theorem C2_token_roundtrip_witness :
    GET store1 reqToken 10 "j9"
      = (Response.redirect (buildRedirect "https://app.example.com/cb" tokenA), []) :=
  C2_token_roundtrip store1 reqToken 10 0 "jti1" "j9" companyA "s3cr3t" userA tokenA
    rfl rfl rfl (by decide) rfl rfl (by decide)

/-- C3: a request whose token fails verification produces exactly the
same response and the same store writes as the identical request with
no token: both fall through to key-based verification. -/
theorem C3_failed_token_equals_absent (store : Store) (req : Request)
    (now : Nat) (jti : String) (tok : Token)
    (htok : req.token = some tok)
    (hfail : ∀ company secret,
        getCompanyByIdOrName store (strOpt (normalizeStr req.company_id))
          (strOpt (normalizeStr req.company_name)) = .ok (some company) →
        getActiveSecret store company.id = some secret →
        jwtVerify tok secret [company.jwt_alg] now = false) :
    GET store req now jti = GET store { req with token := none } now jti := by
  cases hres : getCompanyByIdOrName store (strOpt (normalizeStr req.company_id))
      (strOpt (normalizeStr req.company_name)) with
  | error msg => simp [GET, hres]
  | ok oc =>
    cases oc with
    | none => simp [GET, hres]
    | some company =>
      cases hcb : truthy company.callback_url with
      | false => simp [GET, hres, hcb]
      | true =>
        cases hsec : getActiveSecret store company.id with
        | none => simp [GET, hres, hcb, hsec]
        | some secret =>
          simp [GET, hres, hcb, hsec, htok, hfail company secret hres hsec]

/-- C3 witness: the success request carrying the token that expired at
time 5, handled at time 10, is answered exactly as without the token. -/
theorem C3_failed_token_equals_absent_witness :
    GET store1 reqTokenExpired 10 "j"
      = GET store1 { reqTokenExpired with token := none } 10 "j" :=
  C3_failed_token_equals_absent store1 reqTokenExpired 10 "j" tokenExpired rfl
    (fun company secret hres hsec => by
      obtain rfl : companyA = company := Option.some.inj (Except.ok.inj hres)
      obtain rfl : "s3cr3t" = secret := Option.some.inj hsec
      decide)

/-- C5: exactly one Issued Token row is written when and only when the
key-verification path succeeds; the token-shortcut success and every
failure path write nothing; and the only write the protocol ever
performs is an Issued Token insert (the store rows themselves are
read-only inputs of the model). -/
theorem C5_ledger_frame (store : Store) (req : Request) (now : Nat) (jti : String) :
    ((GET store req now jti).2 = []
      ∨ ∃ u tok, (GET store req now jti).2 = [Effect.insertToken u tok])
    ∧ (∀ msg st, (GET store req now jti).1 = Response.errJson msg st →
        (GET store req now jti).2 = [])
    ∧ (∀ t company secret, req.token = some t →
        getCompanyByIdOrName store (strOpt (normalizeStr req.company_id))
          (strOpt (normalizeStr req.company_name)) = .ok (some company) →
        getActiveSecret store company.id = some secret →
        jwtVerify t secret [company.jwt_alg] now = true →
        (GET store req now jti).2 = [])
    ∧ (∀ u tok, (GET store req now jti).2 = [Effect.insertToken u tok] →
        ∃ company secret user,
          reachesKeyPath store req now company secret
          ∧ findUser store company.id (strOpt (normalizePhone req.phone))
              (strOpt (normalizeStr req.first_name))
              (strOpt (normalizeStr req.last_name)) = some user
          ∧ u = user.id
          ∧ verifyPersonalKey (normalizeStr req.key) (getUserKey store user.id) = true
          ∧ (GET store req now jti).1 = Response.redirect
              (buildRedirect (company.callback_url.getD "") tok))
    ∧ (∀ company secret user tok,
        reachesKeyPath store req now company secret →
        (normalizePhone req.phone ≠ "" ∨
          (normalizeStr req.first_name ≠ "" ∧ normalizeStr req.last_name ≠ "")) →
        normalizeStr req.key ≠ "" →
        findUser store company.id (strOpt (normalizePhone req.phone))
          (strOpt (normalizeStr req.first_name))
          (strOpt (normalizeStr req.last_name)) = some user →
        verifyPersonalKey (normalizeStr req.key) (getUserKey store user.id) = true →
        issueJwt user company secret now jti = Except.ok tok →
        GET store req now jti = (Response.redirect
            (buildRedirect (company.callback_url.getD "") tok),
          [Effect.insertToken user.id tok])) := by
  have hcases := GET_cases store req now jti
  refine ⟨?_, ?_, ?_, ?_, ?_⟩
  · rcases hcases with ⟨m, st, hg, -⟩ | ⟨c, t, s, -, -, -, -, -, hg⟩ |
      ⟨c, s, u, tok, -, -, -, -, hg⟩
    · exact Or.inl (by rw [hg])
    · exact Or.inl (by rw [hg])
    · exact Or.inr ⟨u.id, tok, by rw [hg]⟩
  · intro msg st hresp
    rcases hcases with ⟨m, s2, hg, -⟩ | ⟨c, t, s, -, -, -, -, -, hg⟩ |
      ⟨c, s, u, tok, -, -, -, -, hg⟩
    · rw [hg]
    · rw [hg] at hresp
      simp at hresp
    · rw [hg] at hresp
      simp at hresp
  · intro t c s htk hres hsec hver
    rcases hcases with ⟨m, st, hg, -⟩ | ⟨c2, t2, s2, -, -, -, -, -, hg⟩ |
      ⟨c2, s2, u, tok, hreach, -, -, -, hg⟩
    · rw [hg]
    · rw [hg]
    · exfalso
      obtain ⟨hres2, -, hsec2, hf⟩ := hreach
      obtain rfl : c2 = c := Option.some.inj (Except.ok.inj (hres2.symm.trans hres))
      obtain rfl : s2 = s := Option.some.inj (hsec2.symm.trans hsec)
      rw [hf t htk] at hver
      exact Bool.noConfusion hver
  · intro u tok hw
    rcases hcases with ⟨m, st, hg, -⟩ | ⟨c, t, s, -, -, -, -, -, hg⟩ |
      ⟨c, s, user, tok2, hreach, hfind, hok, hiss, hg⟩
    · rw [hg] at hw
      exact absurd hw (by simp)
    · rw [hg] at hw
      exact absurd hw (by simp)
    · have h12 : user.id = u ∧ tok2 = tok := by
        rw [hg] at hw
        simpa using hw
      obtain ⟨h1, h2⟩ := h12
      subst h1
      subst h2
      exact ⟨c, s, user, hreach, hfind, rfl, hok, by rw [hg]⟩
  · intro c s user tok hreach hid hkey hfind hver hiss
    rw [GET_eq_keyVerification store req now jti c s hreach]
    have hguard : ((normalizePhone req.phone).isEmpty
        && !(!(normalizeStr req.first_name).isEmpty
            && !(normalizeStr req.last_name).isEmpty)) = false := by
      rcases hid with h | ⟨h1, h2⟩
      · simp [isEmpty_false_of_ne h]
      · simp [isEmpty_false_of_ne h1, isEmpty_false_of_ne h2]
    simp only [keyVerification, hguard, isEmpty_false_of_ne hkey, hfind, hver, hiss]
    simp [persistIssuedToken]

/-- C5 witness: the spec's example success request inserts exactly the
one ledger row for user 9 and redirects with the new token. -/
theorem C5_ledger_frame_witness :
    GET store1 reqGood 0 "jti1"
      = (Response.redirect (buildRedirect "https://app.example.com/cb" tokenA),
         [Effect.insertToken 9 tokenA]) :=
  (C5_ledger_frame store1 reqGood 0 "jti1").2.2.2.2 companyA "s3cr3t" userA tokenA
    ⟨rfl, rfl, rfl, fun t ht => Option.noConfusion ht⟩
    (Or.inl (by decide)) (by decide) rfl (by decide) rfl

/-- C9: every entry response is either a redirect or a JSON error body
with status 400, 401, 404 or 500; and every redirect points at the
resolved company's callback URL with the token attached as the `token`
query parameter. -/
theorem C9_response_shape (store : Store) (req : Request) (now : Nat) (jti : String) :
    ((∃ target, (GET store req now jti).1 = Response.redirect target)
      ∨ (∃ msg st, (GET store req now jti).1 = Response.errJson msg st
          ∧ st ∈ [400, 401, 404, 500]))
    ∧ (∀ target, (GET store req now jti).1 = Response.redirect target →
        ∃ company,
          getCompanyByIdOrName store (strOpt (normalizeStr req.company_id))
            (strOpt (normalizeStr req.company_name)) = .ok (some company)
          ∧ company.callback_url = some target.base
          ∧ target.base ≠ "") := by
  have hcases := GET_cases store req now jti
  constructor
  · rcases hcases with ⟨m, st, hg, hst⟩ | ⟨c, t, s, -, -, -, -, -, hg⟩ |
      ⟨c, s, u, tok, -, -, -, -, hg⟩
    · refine Or.inr ⟨m, st, ?_, hst⟩
      rw [hg]
      rfl
    · exact Or.inl ⟨_, by rw [hg]⟩
    · exact Or.inl ⟨_, by rw [hg]⟩
  · intro target htarget
    rcases hcases with ⟨m, st, hg, -⟩ | ⟨c, t, s, hres, hcb, -, -, -, hg⟩ |
      ⟨c, s, u, tok, hreach, -, -, -, hg⟩
    · rw [hg] at htarget
      simp [jsonError] at htarget
    · rw [hg] at htarget
      obtain ⟨cb, hcbeq, hcbne⟩ := truthy_some hcb
      have hx : buildRedirect (c.callback_url.getD "") t = target :=
        Response.redirect.inj htarget
      refine ⟨c, hres, ?_, ?_⟩
      · rw [← hx, hcbeq]
        rfl
      · rw [← hx]
        show c.callback_url.getD "" ≠ ""
        rw [hcbeq]
        exact hcbne
    · obtain ⟨hres, hcb, -, -⟩ := hreach
      rw [hg] at htarget
      obtain ⟨cb, hcbeq, hcbne⟩ := truthy_some hcb
      have hx : buildRedirect (c.callback_url.getD "") tok = target :=
        Response.redirect.inj htarget
      refine ⟨c, hres, ?_, ?_⟩
      · rw [← hx, hcbeq]
        rfl
      · rw [← hx]
        show c.callback_url.getD "" ≠ ""
        rw [hcbeq]
        exact hcbne

/-- C9 witness: the token-shortcut redirect for the sample request
points at company 1's callback URL. -/
theorem C9_response_shape_witness :
    ∃ company,
      getCompanyByIdOrName store1 (strOpt (normalizeStr reqToken.company_id))
        (strOpt (normalizeStr reqToken.company_name)) = .ok (some company)
      ∧ company.callback_url
          = some (RedirectTarget.mk "https://app.example.com/cb" tokenA).base
      ∧ (RedirectTarget.mk "https://app.example.com/cb" tokenA).base ≠ "" :=
  (C9_response_shape store1 reqToken 10 "j").2
    ⟨"https://app.example.com/cb", tokenA⟩ (by decide)

/-- C10: a non-empty `phone` that matches no user of the resolved
company fails with 404 `User not found` even when the supplied name
pair matches an existing user exactly: user lookup never falls back
from the phone strategy to the name strategy. -/
theorem C10_no_phone_fallback (store : Store) (req : Request) (now : Nat)
    (jti : String) (company : CompanyRow) (secret : String) (u : UserRow)
    (hreach : reachesKeyPath store req now company secret)
    (hphone : normalizePhone req.phone ≠ "")
    (hkey : normalizeStr req.key ≠ "")
    (hnone : store.userByPhone company.id (normalizePhone req.phone) = none)
    (_hname : store.userByName company.id (normalizeStr req.first_name)
        (normalizeStr req.last_name) = some u) :
    GET store req now jti = (jsonError "User not found" 404, []) := by
  rw [GET_eq_keyVerification store req now jti company secret hreach]
  have hfind : findUser store company.id (strOpt (normalizePhone req.phone))
      (strOpt (normalizeStr req.first_name))
      (strOpt (normalizeStr req.last_name)) = none := by
    unfold findUser
    rw [strOpt_of_ne hphone, truthy_of_ne hphone]
    simp [hnone]
  have hguard : ((normalizePhone req.phone).isEmpty
      && !(!(normalizeStr req.first_name).isEmpty
          && !(normalizeStr req.last_name).isEmpty)) = false := by
    simp [isEmpty_false_of_ne hphone]
  simp only [keyVerification, hguard, isEmpty_false_of_ne hkey, hfind]
  simp [jsonError]

/-- C10 witness: phone `+19999` matches no user of company 1 while the
name pair matches user 9; the request still fails with 404. -/
theorem C10_no_phone_fallback_witness :
    GET store1 reqNameMatch 0 "j" = (jsonError "User not found" 404, []) :=
  C10_no_phone_fallback store1 reqNameMatch 0 "j" companyA "s3cr3t" userA
    ⟨rfl, rfl, rfl, fun t ht => Option.noConfusion ht⟩
    (by decide) (by decide) (by decide) rfl

end Entry
